import Mathlib

/-!
Shallow embedding of the retrieval-augmented answer pipeline of this
repository (`rag_system.py` and `rag/embedding.py`) and proofs about it.

Modelling conventions:
* Python floats are modelled as exact rationals (`ℚ`).
* The external services (ChromaDB nearest-neighbour query, the
  cross-encoder reranker, the OpenAI chat completion) are opaque oracles
  collected in a `RagEnv`; a call that raises is modelled as `Except.error`
  carrying the exception text `str(e)`.
* Python string operations used by the code (`str.split()`, `str.lower()`,
  `str.strip()`, substring membership, `" ".join`) are re-implemented by
  structural recursion so that every definition is executable.
-/

/-- Python `str.lower()` (character-wise lowering). -/
def lowerStr (s : String) : String := ⟨s.data.map Char.toLower⟩

/-- Helper for `pySplit`: accumulates the current run of non-whitespace
characters (in reverse) and emits maximal runs. -/
def splitWsAux : List Char → List Char → List (List Char)
  | [], cur => if cur = [] then [] else [cur.reverse]
  | c :: rest, cur =>
    if c.isWhitespace then
      if cur = [] then splitWsAux rest [] else cur.reverse :: splitWsAux rest []
    else splitWsAux rest (c :: cur)

/-- Python `str.split()` with no argument: splits on runs of whitespace and
never produces empty tokens. -/
def pySplit (s : String) : List String := (splitWsAux s.data []).map (fun l => ⟨l⟩)

/-- Python substring membership `needle in hay`. -/
def strContainsSub (hay needle : String) : Bool :=
  hay.data.tails.any (fun t => needle.data.isPrefixOf t)

/-- Python `" ".join(items)`. -/
def joinSpace : List String → String
  | [] => ""
  | [x] => x
  | x :: rest => x ++ " " ++ joinSpace rest

/-- Python `str.strip()`: removes leading and trailing whitespace. -/
def trimStr (s : String) : String :=
  ⟨((s.data.dropWhile Char.isWhitespace).reverse.dropWhile Char.isWhitespace).reverse⟩

namespace RagSystem

/-- The quality-assessment record returned by
`RagSystem.assess_response_quality`.  The source returns a Python dict; the
two extra diagnostic keys (`avg_confidence`, `max_confidence`), present only
in the non-empty branch, are omitted here because nothing downstream and no
claim reads them. -/
structure QualityAssessment where
  quality_score : ℚ
  has_sufficient_data : Bool
  recommendation : String
deriving DecidableEq

/-- `float(np.mean(xs))` on a non-empty list (sum divided by length). -/
def npMean (xs : List ℚ) : ℚ := xs.sum / (xs.length : ℚ)

/-- Python built-in `max` on a non-empty list (the `[]` case is never used
by the code, which guards non-emptiness first). -/
def pyMax : List ℚ → ℚ
  | [] => 0
  | x :: r => r.foldl max x

/-- `RagSystem.assess_response_quality(query, documents, confidence_scores)`
from `rag_system.py`.  The `query` argument is unused by the source as well. -/
def assess_response_quality (_query : String) (documents : List String)
    (confidence_scores : List ℚ) : QualityAssessment :=
  if documents = [] then
    ⟨0, false, "no_documents"⟩
  else
    let cs := if confidence_scores = [] then List.replicate documents.length 0
              else confidence_scores
    let valid_scores := if cs = [] then [0] else cs
    let avg_confidence := npMean valid_scores
    let max_confidence := pyMax valid_scores
    let has_sufficient_data :=
      decide (1 ≤ documents.length) && decide ((1 : ℚ)/10 < max_confidence)
    let quality_score := (avg_confidence + max_confidence) / 2
    let recommendation :=
      if !has_sufficient_data then "ask_clarification"
      else if (7 : ℚ)/10 < quality_score then "high_confidence"
      else if (2 : ℚ)/5 < quality_score then "medium_confidence"
      else "low_confidence"
    ⟨quality_score, has_sufficient_data, recommendation⟩

end RagSystem

namespace RagSystem

/-- The external collaborators and configuration of a `RagSystem` instance.
`rawQuery` models `self.collection.query` (the embedding call plus the
nearest-neighbour search); `rerankScores` models `self.reranker.predict`;
`generate` models the OpenAI chat-completion call (the grounded prompt the
code builds from the query, the documents and the scores is absorbed into
this opaque oracle, which receives those three pieces directly).  An
`Except.error e` result models the call raising an exception with message
`e`. -/
structure RagEnv where
  initialized : Bool
  collection_count : Nat
  rawQuery : String → Nat → Except String (List String × List ℚ)
  reranking : Bool
  rerankScores : String → List String → Except String (List ℚ)
  generate : String → List String → List ℚ → Except String String

/-- `RagSystem.retrieve_documents(query, n_results)`: returns `([], [])`
when the system is uninitialized, when the collection is empty, when the
underlying query raises (the `except` branch), or when it matches nothing;
otherwise the documents with their distances. -/
def retrieve_documents (env : RagEnv) (query : String) (n_results : Nat) :
    List String × List ℚ :=
  if !env.initialized then ([], [])
  else if env.collection_count = 0 then ([], [])
  else
    match env.rawQuery query (min n_results env.collection_count) with
    | .error _ => ([], [])
    | .ok (documents, distances) =>
      if documents = [] then ([], []) else (documents, distances)

/-- `RagSystem.rerank_documents(query, documents, top_k)`: empty input
passes through; with reranking disabled (or the reranker missing) the first
`top_k` documents get the fixed dummy score 0.5; with reranking enabled the
query/document pairs are scored, sorted by score descending (Python's
stable sort with `reverse=True`) and truncated to `top_k`; if `predict`
raises, the same first-`top_k`/0.5 fallback is returned. -/
def rerank_documents (env : RagEnv) (query : String) (documents : List String)
    (top_k : Nat) : List String × List ℚ :=
  if documents = [] then ([], [])
  else if !env.reranking then
    let selected_docs := documents.take top_k
    (selected_docs, List.replicate selected_docs.length ((1 : ℚ)/2))
  else
    match env.rerankScores query documents with
    | .error _ =>
      let selected_docs := documents.take top_k
      (selected_docs, List.replicate selected_docs.length ((1 : ℚ)/2))
    | .ok scores =>
      let doc_score_pairs :=
        (documents.zip scores).mergeSort (fun a b => decide (b.2 ≤ a.2))
      ((doc_score_pairs.take top_k).map Prod.fst,
       (doc_score_pairs.take top_k).map Prod.snd)

/-- The interrogative stop-words filtered by `_extract_key_terms`. -/
def stopWords : List String := ["como", "qual", "onde", "quando", "porque"]

/-- The automotive-sector keyword list of `_extract_key_terms`. -/
def automotiveKeywords : List String :=
  ["automotivo", "automóvel", "carro", "veículo", "montadora",
   "mercado", "produção", "vendas", "exportação", "importação",
   "economia", "setor", "indústria", "são paulo", "sp"]

/-- `RagSystem._extract_key_terms(query)` (the fallback query rewriter):
lower-cases and whitespace-splits the query, keeps tokens longer than 3
characters that are not stop-words, prioritizes tokens containing an
automotive keyword, otherwise joins the first 3 surviving tokens.  The
Python `except` branch (returning the original query) is unreachable in
this pure model. -/
def extract_key_terms (query : String) : String :=
  let words := pySplit (lowerStr query)
  let key_words := words.filter
    (fun word => decide (3 < word.length) && !(stopWords.contains word))
  let auto_words := key_words.filter
    (fun word => automotiveKeywords.any (fun kw => strContainsSub word kw))
  if auto_words ≠ [] then joinSpace auto_words
  else joinSpace (key_words.take 3)

/-- The fixed not-initialized response of `generate_response`. -/
def notInitializedResponse : String :=
  "Sistema RAG não está funcionando corretamente. Verifique a configuração do ChromaDB."

/-- The response `generate_response` builds in its `except` branch:
`f"Erro ao processar sua consulta: {str(e)}. Verifique se a API da OpenAI
está configurada corretamente."` — note that it embeds the exception text. -/
def generationErrorResponse (e : String) : String :=
  "Erro ao processar sua consulta: " ++ e ++
    ". Verifique se a API da OpenAI está configurada corretamente."

/-- `RagSystem.generate_response(query, documents, confidence_scores)`:
fixes up a score list whose length disagrees with the documents, invokes
the generation oracle, and converts a raised exception into
`generationErrorResponse` (the exception never escapes). -/
def generate_response (env : RagEnv) (query : String) (documents : List String)
    (confidence_scores : List ℚ) : String :=
  if !env.initialized then notInitializedResponse
  else
    let cs := if documents ≠ [] ∧ confidence_scores.length ≠ documents.length
              then List.replicate documents.length ((1 : ℚ)/2)
              else confidence_scores
    match env.generate query documents cs with
    | .ok content => content
    | .error e => generationErrorResponse e

/-- `RagSystem.search_with_fallback(query, initial_n_results)`.  The second
component of the result counts how many times the retrieval stage
(`retrieve_documents`) was invoked.  Attempt 1 retrieves, reranks and
assesses; when the assessment reports sufficient data the reranked evidence
is returned.  Otherwise attempt 2 re-retrieves with the extracted key terms
(only when they differ from the original query) and reranks, returning the
attempt-1 evidence when the fallback retrieval finds nothing. -/
def search_with_fallback (env : RagEnv) (query : String)
    (initial_n_results : Nat) : (List String × List ℚ) × Nat :=
  let tryFallback : List String → List ℚ → (List String × List ℚ) × Nat :=
    fun documents confidence_scores =>
      let key_terms := extract_key_terms query
      if key_terms ≠ query then
        let rF := retrieve_documents env key_terms initial_n_results
        if rF.1 ≠ [] then (rerank_documents env key_terms rF.1 4, 2)
        else ((documents, confidence_scores), 2)
      else ((documents, confidence_scores), 1)
  let r1 := retrieve_documents env query initial_n_results
  if r1.1 ≠ [] then
    let rr := rerank_documents env query r1.1 4
    let qa := assess_response_quality query rr.1 rr.2
    if qa.has_sufficient_data then ((rr.1, rr.2), 1)
    else tryFallback rr.1 rr.2
  else tryFallback [] []

/-- The result dict of `RagSystem.query`.  `processing_time_ms` (wall-clock
time) is not modelled. -/
structure QueryResult where
  query : String
  response : String
  retrieved_documents : List String
  confidence_scores : List ℚ
  num_documents : Nat
  quality_assessment : QualityAssessment
  reranking_enabled : Bool
  system_initialized : Bool
  error : Option String

/-- One appended row of `logs_rag.csv` (timestamp and processing time, both
wall-clock values, are not modelled). -/
structure LogRow where
  query : String
  response_length : Nat
  num_documents : Nat
  confidence_avg : ℚ
  rerank_enabled : Bool

/-- The exception message raised by `query` when the system is not
initialized. -/
def initErrorMessage : String :=
  "Sistema RAG não inicializado. Verifique ChromaDB e embeddings."

/-- The fallback response `query` produces when the caught exception text
mentions ChromaDB or embeddings (the not-initialized message does). -/
def chromaUnavailableResponse : String :=
  "⚠️ **Sistema de busca indisponível**

O sistema de busca na base de conhecimento está temporariamente indisponível devido a problemas técnicos com o ChromaDB ou modelos de embedding.

**Possíveis soluções:**
1. Verifique se o ChromaDB está instalado: `pip install chromadb`
2. Verifique se há documentos na base de dados
3. Execute novamente a indexação dos documentos
4. Verifique se os modelos de embedding estão funcionando

Para consultas sobre economia de São Paulo, recomendo reformular a pergunta ou entrar em contato com o administrador do sistema."

/-- `RagSystem.query(user_query, n_results)`, the end-to-end pipeline.
Returns the result dict, the log row appended by `_log_query`, and the
number of retrieval-stage invocations.  When the system is uninitialized
the body raises `initErrorMessage`; since that message contains "ChromaDB"
the handler answers with `chromaUnavailableResponse`, records the error
field, and still logs.  In the pure model no other statement can raise:
`search_with_fallback`, `assess_response_quality` and `generate_response`
catch their own failures internally, exactly as in the source. -/
def query (env : RagEnv) (user_query : String) (n_results : Nat) :
    QueryResult × LogRow × Nat :=
  if env.initialized then
    let search_n_results := max (n_results * 2) 8
    let sr := search_with_fallback env user_query search_n_results
    let documents := sr.1.1
    let cs0 := sr.1.2
    let confidence_scores :=
      if cs0 = [] ∧ documents ≠ []
      then List.replicate documents.length ((1 : ℚ)/2) else cs0
    let quality_assessment :=
      assess_response_quality user_query documents confidence_scores
    let response := generate_response env user_query documents confidence_scores
    let confidence_avg :=
      if confidence_scores = [] then 0 else npMean confidence_scores
    (⟨user_query, response, documents, confidence_scores, documents.length,
      quality_assessment, env.reranking, true, none⟩,
     ⟨user_query, response.length, documents.length, confidence_avg,
      env.reranking⟩,
     sr.2)
  else
    (⟨user_query, chromaUnavailableResponse, [], [], 0,
      ⟨0, false, "system_error"⟩, env.reranking, false, some initErrorMessage⟩,
     ⟨user_query, chromaUnavailableResponse.length, 0, 0, env.reranking⟩,
     0)

end RagSystem

/-- The triple `(quality_score, has_sufficient_data, recommendation)` that
claim C1 (and §4.5 of the spec) prescribes, written from the spec's words:
`avg = mean(scores)`, `max = max(scores)` with the empty list treated as
`avg = max = 0`; `has_sufficient_data = (len(scores) >= 1) AND (max > 0.1)`;
`quality_score = (avg + max)/2`; recommendation branches checked in order
no-evidence, insufficient, `> 0.7`, `> 0.4`, else. -/
def assessSpec (documents : List String) (scores : List ℚ) : ℚ × Bool × String :=
  if documents = [] then (0, false, "no_documents")
  else
    let avg := if scores = [] then 0 else RagSystem.npMean scores
    let mx := RagSystem.pyMax scores
    let has_sufficient_data := decide (1 ≤ scores.length) && decide ((1 : ℚ)/10 < mx)
    let quality_score := (avg + mx) / 2
    let recommendation :=
      if !has_sufficient_data then "ask_clarification"
      else if (7 : ℚ)/10 < quality_score then "high_confidence"
      else if (2 : ℚ)/5 < quality_score then "medium_confidence"
      else "low_confidence"
    (quality_score, has_sufficient_data, recommendation)

/-- True for the separator characters `.`, `_`, `-`. -/
def sepChar (c : Char) : Bool := c = '.' || c = '_' || c = '-'

/-- True for the characters the ChromaDB collection-name regex
`[a-zA-Z0-9._-]` accepts. -/
def allowedChar (c : Char) : Bool := c.isAlpha || c.isDigit || sepChar c

/-- `re.sub(r'[._-]+$', '', ·)`: strips trailing separator characters. -/
def rstripSep (l : List Char) : List Char :=
  ((l.reverse).dropWhile sepChar).reverse

/-- Statement `if len(name) > 63: name = name[:63]; name = re.sub(...)` of
`sanitize_collection_name`: truncate to 63 characters and strip the
trailing separators the cut may have exposed. -/
def sanitizeTruncate (s2 : List Char) : List Char :=
  if 63 < s2.length then rstripSep (s2.take 63) else s2

/-- Statement `if len(name) < 3: name = name + "001"` of
`sanitize_collection_name`: pad a too-short name. -/
def sanitizePad (s3 : List Char) : List Char :=
  if s3.length < 3 then s3 ++ ['0', '0', '1'] else s3

/-- `sanitize_collection_name` from `rag/embedding.py`, on character
lists: replace every disallowed character with `_`; strip leading and
trailing separators; truncate (`sanitizeTruncate`); pad (`sanitizePad`). -/
def sanitizeList (s : List Char) : List Char :=
  let s1 := s.map (fun c => if allowedChar c then c else '_')
  let s2 := rstripSep (s1.dropWhile sepChar)
  sanitizePad (sanitizeTruncate s2)

/-- `sanitize_collection_name(name)` from `rag/embedding.py`. -/
def sanitize_collection_name (s : String) : String := ⟨sanitizeList s.data⟩

namespace DocumentProcessor

/-- The chunk id built by `process_documents`:
`f"doc_{i}_{hashlib.md5(chunk.page_content.encode()).hexdigest()[:8]}"`,
where `i` is the chunk's position in the enumeration of valid chunks and
the second component is the (truncated) content hash. -/
def mkDocId (i : Nat) (h : String) : String :=
  "doc_" ++ toString i ++ "_" ++ h

/-- The `(id, text)` pairs `process_documents` prepares for the ChromaDB
upsert: chunks whose stripped text is at most 50 characters are filtered
out, the survivors are enumerated, and each gets `mkDocId` of its position
and content hash.  `md5hex8` abstracts the deterministic 8-hex-digit MD5
prefix; the claims depend only on it being a fixed function of the text. -/
def prepareEntries (md5hex8 : String → String) (chunks : List String) :
    List (String × String) :=
  ((chunks.filter (fun c => 50 < (trimStr c).length)).enum).map
    (fun p => (mkDocId p.1 (md5hex8 p.2), p.2))

/-- The ids present in an index (ChromaDB keys documents by id). -/
def indexIds (idx : List (String × String)) : List String := idx.map Prod.fst

/-- A single keyed upsert: replace the document stored under `id` when the
id already exists, insert a new entry otherwise (ChromaDB
`collection.upsert` semantics per id). -/
def upsertOne (idx : List (String × String)) (id doc : String) :
    List (String × String) :=
  if id ∈ indexIds idx then
    idx.map (fun p => if p.1 = id then (id, doc) else p)
  else idx ++ [(id, doc)]

/-- Upserting a batch of `(id, text)` entries in order.  The source splits
the list into batches of 100, but consecutive keyed upserts are performed
entry by entry either way, so batching does not affect the index. -/
def upsertAll (idx : List (String × String)) (entries : List (String × String)) :
    List (String × String) :=
  entries.foldl (fun acc e => upsertOne acc e.1 e.2) idx

/-- `DocumentProcessor.process_documents` restricted to its effect on the
index: prepare the `(id, text)` entries for the corpus and upsert them. -/
def process_documents (md5hex8 : String → String)
    (idx : List (String × String)) (chunks : List String) :
    List (String × String) :=
  upsertAll idx (prepareEntries md5hex8 chunks)

end DocumentProcessor

section AssessLemmas

lemma foldl_max_replicate_zero : ∀ m : Nat, List.foldl max (0 : ℚ) (List.replicate m 0) = 0 := by
  intro m
  induction m with
  | zero => rfl
  | succ k ih => simpa [List.replicate_succ] using ih

lemma pyMax_replicate_zero (n : Nat) : RagSystem.pyMax (List.replicate n (0 : ℚ)) = 0 := by
  cases n with
  | zero => rfl
  | succ k =>
    simp only [List.replicate_succ, RagSystem.pyMax]
    exact foldl_max_replicate_zero k

lemma npMean_replicate_zero (n : Nat) : RagSystem.npMean (List.replicate n (0 : ℚ)) = 0 := by
  simp [RagSystem.npMean]

end AssessLemmas

/-- C1: for every evidence set, `assess_response_quality` computes exactly
the triple prescribed by the spec: with no evidence, quality score 0,
insufficient data, recommendation `no_documents`; with evidence and score
list `S`, `has_sufficient_data = (len(S) ≥ 1 ∧ max(S) > 0.1)`,
`quality_score = (mean(S) + max(S))/2` (empty `S` read as mean = max = 0),
and the recommendation thresholds checked in the order insufficient →
`ask_clarification`, `> 0.7` → `high_confidence`, `> 0.4` →
`medium_confidence`, else `low_confidence`. -/
theorem C1_assess_matches_spec (q : String) (documents : List String)
    (scores : List ℚ) :
    ((RagSystem.assess_response_quality q documents scores).quality_score,
     (RagSystem.assess_response_quality q documents scores).has_sufficient_data,
     (RagSystem.assess_response_quality q documents scores).recommendation)
      = assessSpec documents scores := by
  by_cases hd : documents = []
  · simp [RagSystem.assess_response_quality, assessSpec, hd]
  · by_cases hs : scores = []
    · subst hs
      have hn : documents.length ≠ 0 := by
        simpa [List.length_eq_zero] using hd
      have hrep : List.replicate documents.length (0 : ℚ) ≠ [] := by
        simpa [List.replicate_eq_nil_iff] using hn
      have hmax := pyMax_replicate_zero documents.length
      have hmean := npMean_replicate_zero documents.length
      have hL : RagSystem.assess_response_quality q documents []
          = ⟨0, false, "ask_clarification"⟩ := by
        simp only [RagSystem.assess_response_quality, if_neg hd]
        simp [hrep, hmax, hmean]
      have hR : assessSpec documents [] = (0, false, "ask_clarification") := by
        simp only [assessSpec, if_neg hd]
        norm_num [RagSystem.pyMax]
      rw [hL, hR]
    · have h1 : (1 : Nat) ≤ documents.length := by
        have := List.length_pos.mpr hd
        omega
      have h2 : (1 : Nat) ≤ scores.length := by
        have := List.length_pos.mpr hs
        omega
      simp [RagSystem.assess_response_quality, assessSpec, hd, hs, h1, h2]

/-- C3 counterexample: applying the quality assessor to the score list
`[0.9, 0.8]` (with two retrieved documents) yields `quality_score = 0.875`,
not `0.85` as the claim states: the assessor averages the mean `0.85` with
the maximum `0.9`. -/
theorem C3_counterexample :
    ¬ ((RagSystem.assess_response_quality "q" ["d1", "d2"]
          [(9 : ℚ)/10, 8/10]).quality_score = (17 : ℚ)/20) := by
  have hval : (RagSystem.assess_response_quality "q" ["d1", "d2"]
      [(9 : ℚ)/10, 8/10]).quality_score = (7 : ℚ)/8 := by
    simp [RagSystem.assess_response_quality, RagSystem.npMean, RagSystem.pyMax]
    norm_num
  rw [hval]
  norm_num

/-- C3 amended: applying the quality assessor to the score list
`[0.9, 0.8]` yields `quality_score = 0.875` (the mean `0.85` averaged with
the maximum `0.9`) and recommendation `high_confidence`. -/
theorem C3_amended :
    (RagSystem.assess_response_quality "q" ["d1", "d2"]
        [(9 : ℚ)/10, 8/10]).quality_score = (7 : ℚ)/8
    ∧ (RagSystem.assess_response_quality "q" ["d1", "d2"]
        [(9 : ℚ)/10, 8/10]).recommendation = "high_confidence" := by
  constructor
  · simp [RagSystem.assess_response_quality, RagSystem.npMean, RagSystem.pyMax]
    norm_num
  · simp [RagSystem.assess_response_quality, RagSystem.npMean, RagSystem.pyMax]
    norm_num

section PipelineLemmas

lemma search_with_fallback_calls_le_two (env : RagSystem.RagEnv) (q : String)
    (n : Nat) : (RagSystem.search_with_fallback env q n).2 ≤ 2 := by
  unfold RagSystem.search_with_fallback
  dsimp only
  split
  · split
    · omega
    · split
      · split <;> omega
      · omega
  · split
    · split <;> omega
    · omega

lemma rerank_documents_len_eq (env : RagSystem.RagEnv) (q : String)
    (docs : List String) (k : Nat) :
    (RagSystem.rerank_documents env q docs k).2.length
      = (RagSystem.rerank_documents env q docs k).1.length := by
  unfold RagSystem.rerank_documents
  split
  · rfl
  · split
    · simp
    · split
      · simp
      · simp

lemma rerank_documents_len_le (env : RagSystem.RagEnv) (q : String)
    (docs : List String) (k : Nat) :
    (RagSystem.rerank_documents env q docs k).1.length ≤ k := by
  unfold RagSystem.rerank_documents
  split
  · simp
  · split
    · simp
    · split
      · simp
      · simp

lemma search_with_fallback_scores_len (env : RagSystem.RagEnv) (q : String)
    (n : Nat) :
    (RagSystem.search_with_fallback env q n).1.2.length
      = (RagSystem.search_with_fallback env q n).1.1.length := by
  unfold RagSystem.search_with_fallback
  dsimp only
  split
  · split
    · exact rerank_documents_len_eq env q _ 4
    · split
      · split
        · exact rerank_documents_len_eq env _ _ 4
        · exact rerank_documents_len_eq env q _ 4
      · exact rerank_documents_len_eq env q _ 4
  · split
    · split
      · exact rerank_documents_len_eq env _ _ 4
      · rfl
    · rfl

end PipelineLemmas

/-- C2: every end-to-end execution of `query` — including one whose primary
and fallback retrieval attempts both come back with insufficient data —
invokes the retrieval stage (`retrieve_documents`) at most twice: the
primary attempt plus at most one fallback retry, never a third time.  The
third component of `query`'s result counts the retrieval invocations. -/
theorem C2_bounded_single_retry (env : RagSystem.RagEnv) (uq : String)
    (n : Nat) : (RagSystem.query env uq n).2.2 ≤ 2 := by
  unfold RagSystem.query
  split
  · exact search_with_fallback_calls_le_two env uq _
  · simp

/-- C10: on every execution path of `query` (success, degraded or the
internal-failure branch) the result satisfies
`num_documents = len(retrieved_documents)` and
`len(confidence_scores) = len(retrieved_documents)` — unconditionally, so
in particular whenever `retrieved_documents` is non-empty — and reranking
(enabled, pass-through, or its internal failure fallback) always returns
document and score lists of equal length, each of length at most `top_k`. -/
theorem C10_result_invariants (env : RagSystem.RagEnv) (uq : String)
    (n : Nat) (q : String) (docs : List String) (k : Nat) :
    (RagSystem.query env uq n).1.num_documents
        = (RagSystem.query env uq n).1.retrieved_documents.length
    ∧ (RagSystem.query env uq n).1.confidence_scores.length
        = (RagSystem.query env uq n).1.retrieved_documents.length
    ∧ (RagSystem.rerank_documents env q docs k).1.length
        = (RagSystem.rerank_documents env q docs k).2.length
    ∧ (RagSystem.rerank_documents env q docs k).1.length ≤ k := by
  refine ⟨?_, ?_, (rerank_documents_len_eq env q docs k).symm,
    rerank_documents_len_le env q docs k⟩
  · unfold RagSystem.query
    split
    · rfl
    · rfl
  · have hs := search_with_fallback_scores_len env uq (max (n * 2) 8)
    unfold RagSystem.query
    split
    · dsimp only
      split
      · next h => simp
      · exact hs
    · rfl

/-- C4 counterexample: on the query `"qual"` — whose only token is a
stop-word, so every token is filtered out — the fallback query rewriter
returns the empty string, not the original query and not any non-empty
string. -/
theorem C4_counterexample :
    RagSystem.extract_key_terms "qual" = "" ∧ "qual" ≠ "" := by
  constructor
  · decide
  · decide

/-- C4 amended: whenever every token of the query is filtered out (a
stop-word or not longer than 3 characters), the fallback query rewriter
returns the empty string — the join of the empty survivor list — rather
than the original query; the original query is returned only on an
internal exception, which the pure string computation cannot raise. -/
theorem C4_amended (q : String)
    (h : (pySplit (lowerStr q)).filter
        (fun word => decide (3 < word.length)
          && !(RagSystem.stopWords.contains word)) = []) :
    RagSystem.extract_key_terms q = "" := by
  unfold RagSystem.extract_key_terms
  simp only [h]
  rfl

/-- C4 witness: the hypothesis and conclusion of `C4_amended` at the
concrete query `"qual"`. -/
theorem C4_witness :
    ((pySplit (lowerStr "qual")).filter
        (fun word => decide (3 < word.length)
          && !(RagSystem.stopWords.contains word)) = [])
    ∧ RagSystem.extract_key_terms "qual" = "" :=
  ⟨by decide, C4_amended "qual" (by decide)⟩

section IngestLemmas

open DocumentProcessor

lemma indexIds_upsertOne_of_mem {idx : List (String × String)} {id : String}
    (doc : String) (h : id ∈ indexIds idx) :
    indexIds (upsertOne idx id doc) = indexIds idx := by
  unfold upsertOne
  rw [if_pos h]
  unfold indexIds
  rw [List.map_map]
  apply List.map_congr_left
  intro p _
  by_cases hp : p.1 = id
  · simp [hp]
  · simp [hp]

lemma length_upsertOne_of_mem {idx : List (String × String)} {id : String}
    (doc : String) (h : id ∈ indexIds idx) :
    (upsertOne idx id doc).length = idx.length := by
  unfold upsertOne
  rw [if_pos h]
  exact List.length_map idx _

lemma mem_indexIds_upsertOne {idx : List (String × String)} {k : String}
    (id doc : String) (h : k ∈ indexIds idx) :
    k ∈ indexIds (upsertOne idx id doc) := by
  by_cases hid : id ∈ indexIds idx
  · rw [indexIds_upsertOne_of_mem doc hid]; exact h
  · unfold upsertOne
    rw [if_neg hid]
    simp only [indexIds, List.map_append, List.mem_append]
    exact Or.inl h

lemma self_mem_indexIds_upsertOne (idx : List (String × String))
    (id doc : String) : id ∈ indexIds (upsertOne idx id doc) := by
  by_cases hid : id ∈ indexIds idx
  · rw [indexIds_upsertOne_of_mem doc hid]; exact hid
  · unfold upsertOne
    rw [if_neg hid]
    simp [indexIds]

lemma mem_indexIds_upsertAll {k : String} :
    ∀ (entries : List (String × String)) (idx : List (String × String)),
      k ∈ indexIds idx → k ∈ indexIds (upsertAll idx entries) := by
  intro entries
  induction entries with
  | nil => intro idx h; exact h
  | cons a t ih =>
    intro idx h
    exact ih (upsertOne idx a.1 a.2) (mem_indexIds_upsertOne a.1 a.2 h)

lemma entry_mem_indexIds_upsertAll :
    ∀ (entries : List (String × String)) (idx : List (String × String)),
      ∀ e ∈ entries, e.1 ∈ indexIds (upsertAll idx entries) := by
  intro entries
  induction entries with
  | nil => intro idx e he; cases he
  | cons a t ih =>
    intro idx e he
    rcases List.mem_cons.mp he with rfl | hmem
    · exact mem_indexIds_upsertAll t _
        (self_mem_indexIds_upsertOne idx e.1 e.2)
    · exact ih _ e hmem

lemma length_upsertAll_of_mem :
    ∀ (entries : List (String × String)) (idx : List (String × String)),
      (∀ e ∈ entries, e.1 ∈ indexIds idx) →
      (upsertAll idx entries).length = idx.length := by
  intro entries
  induction entries with
  | nil => intro idx _; rfl
  | cons a t ih =>
    intro idx h
    have ha : a.1 ∈ indexIds idx := h a (List.mem_cons_self a t)
    calc (upsertAll (upsertOne idx a.1 a.2) t).length
        = (upsertOne idx a.1 a.2).length :=
          ih _ (fun e he => mem_indexIds_upsertOne a.1 a.2 (h e (List.mem_cons_of_mem a he)))
      _ = idx.length := length_upsertOne_of_mem a.2 ha

end IngestLemmas

/-- C5 counterexample: chunk ids are not derived from the text content
alone.  Two chunks with identical (valid, longer-than-50-characters) text
at positions 0 and 1 of the same corpus receive the distinct ids
`doc_0_<hash>` and `doc_1_<hash>`, because `process_documents` builds each
id from the chunk's enumeration index as well as its content hash. -/
theorem C5_counterexample :
    (DocumentProcessor.prepareEntries (fun _ => "aabbccdd")
        ["aaaaaaaaaaaaaaaaaaaaaaaaaaaaaaaaaaaaaaaaaaaaaaaaaaaaaaaaaaaa",
         "aaaaaaaaaaaaaaaaaaaaaaaaaaaaaaaaaaaaaaaaaaaaaaaaaaaaaaaaaaaa"]).map
        Prod.fst
      = ["doc_0_aabbccdd", "doc_1_aabbccdd"]
    ∧ ("doc_0_aabbccdd" : String) ≠ "doc_1_aabbccdd" := by
  constructor
  · decide
  · decide

/-- C5 amended: ingesting the same document content twice produces the same
index chunk count as ingesting it once.  Each chunk's id is derived from
its position in the enumeration of valid chunks together with a hash of its
text content (not from the content alone), so re-ingesting the identical
corpus reproduces the identical id list entry by entry and the second
ingestion is an upsert no-op for the count rather than a duplicate insert. -/
theorem C5_amended (md5hex8 : String → String)
    (idx : List (String × String)) (chunks : List String) :
    (DocumentProcessor.process_documents md5hex8
        (DocumentProcessor.process_documents md5hex8 idx chunks) chunks).length
      = (DocumentProcessor.process_documents md5hex8 idx chunks).length := by
  unfold DocumentProcessor.process_documents
  exact length_upsertAll_of_mem _ _
    (fun e he => entry_mem_indexIds_upsertAll _ idx e he)

lemma search_with_fallback_calls_pos (env : RagSystem.RagEnv) (q : String)
    (n : Nat) : 1 ≤ (RagSystem.search_with_fallback env q n).2 := by
  unfold RagSystem.search_with_fallback
  dsimp only
  split
  · split
    · omega
    · split
      · split <;> omega
      · omega
  · split
    · split <;> omega
    · omega

/-- An initialized system over an empty collection whose generation oracle
answers normally; used to exercise `query` on an empty query string. -/
def envNoValidation : RagSystem.RagEnv :=
  ⟨true, 0, fun _ _ => .ok ([], []), false, fun _ _ => .ok [],
   fun _ _ _ => .ok "resposta"⟩

/-- C6 counterexample: on the empty query string, `query` does not reject
the input before the pipeline runs: the retrieval stage is invoked (once),
and the returned response is the generation oracle's answer, not the
"provide a valid question" prompt (that prompt exists only in the
interactive-session loop and the agent wrapper, outside `query`). -/
theorem C6_counterexample :
    1 ≤ (RagSystem.query envNoValidation "" 5).2.2
    ∧ (RagSystem.query envNoValidation "" 5).1.response
        ≠ "Por favor, forneça uma pergunta válida." := by
  constructor
  · decide
  · decide

/-- C6 amended: `query` performs no empty/whitespace validation of the
query text: for every query string — the empty and whitespace-only ones
included — as soon as the system is initialized the retrieval stage is
invoked at least once.  The "provide a valid question" prompt is issued
only by the interactive session loop and by the agent wrapper, which sit
outside the `query` operation. -/
theorem C6_amended (env : RagSystem.RagEnv) (uq : String) (n : Nat)
    (hinit : env.initialized = true) :
    1 ≤ (RagSystem.query env uq n).2.2 := by
  unfold RagSystem.query
  rw [hinit]
  simpa using search_with_fallback_calls_pos env uq (max (n * 2) 8)

/-- C6 witness: `C6_amended` applied to the concrete environment
`envNoValidation` and the empty query. -/
theorem C6_witness :
    envNoValidation.initialized = true
    ∧ 1 ≤ (RagSystem.query envNoValidation "" 5).2.2 :=
  ⟨rfl, C6_amended envNoValidation "" 5 rfl⟩

/-- An initialized system holding one document whose retrieval and
(pass-through) reranking succeed while every generation call raises with
message `"boom"`. -/
def envGenDown : RagSystem.RagEnv :=
  ⟨true, 1, fun _ _ => .ok (["documento"], [0]), false, fun _ _ => .ok [],
   fun _ _ _ => .error "boom"⟩

/-- C7 amended: when the system is initialized and the generation call
raises with message `e`, `query` returns the diagnostic template with the
raw failure text `e` embedded in it (so the response is not a fixed string
independent of the failure), does NOT populate the result's `error` field
(the exception is swallowed inside `generate_response`, so `query`'s
handler never sees it), and still logs the query with `response_length`
equal to that diagnostic response's length. -/
theorem C7_amended (env : RagSystem.RagEnv) (uq : String) (n : Nat)
    (e : String) (hinit : env.initialized = true)
    (hgen : env.generate = fun _ _ _ => Except.error e) :
    (RagSystem.query env uq n).1.response = RagSystem.generationErrorResponse e
    ∧ (RagSystem.query env uq n).1.error = none
    ∧ (RagSystem.query env uq n).2.1.response_length
        = (RagSystem.generationErrorResponse e).length := by
  have hgr : ∀ (q : String) (docs : List String) (cs : List ℚ),
      RagSystem.generate_response env q docs cs
        = RagSystem.generationErrorResponse e := by
    intro q docs cs
    unfold RagSystem.generate_response
    rw [hinit, hgen]
    simp
  unfold RagSystem.query
  rw [hinit]
  simp [hgr]

/-- C7 witness: `C7_amended` applied to the concrete environment
`envGenDown`, whose generation oracle always raises `"boom"`. -/
theorem C7_witness :
    envGenDown.initialized = true
    ∧ envGenDown.generate = (fun _ _ _ => Except.error "boom")
    ∧ ((RagSystem.query envGenDown "consulta" 5).1.response
          = RagSystem.generationErrorResponse "boom"
       ∧ (RagSystem.query envGenDown "consulta" 5).1.error = none
       ∧ (RagSystem.query envGenDown "consulta" 5).2.1.response_length
          = (RagSystem.generationErrorResponse "boom").length) :=
  ⟨rfl, rfl, C7_amended envGenDown "consulta" 5 "boom" rfl rfl⟩

/-- C7 counterexample: with retrieval and reranking succeeding and the
generation call raising `"boom"`, the result's `error` field is NOT
populated (refuting the claim that it is), and the response is the
diagnostic template with the raw failure text `"boom"` spliced in
(refuting the claim that the response is a fixed string that does not
contain the raw failure). -/
theorem C7_counterexample :
    (RagSystem.query envGenDown "consulta" 5).1.error = none
    ∧ (RagSystem.query envGenDown "consulta" 5).1.response
        = "Erro ao processar sua consulta: boom. Verifique se a API da OpenAI está configurada corretamente." := by
  have h := C7_amended envGenDown "consulta" 5 "boom" rfl rfl
  exact ⟨h.2.1, h.1⟩

/-- An initialized system whose collection reports 3 documents but whose
embedding/nearest-neighbour call always raises. -/
def envEmbedFail : RagSystem.RagEnv :=
  ⟨true, 3, fun _ _ => .error "embedding service down", false,
   fun _ _ => .ok [], fun _ _ _ => .ok "ok"⟩

/-- An initialized system over an empty index (collection count 0) whose
services all work. -/
def envEmptyIdx : RagSystem.RagEnv :=
  ⟨true, 0, fun _ _ => .ok ([], []), false, fun _ _ => .ok [],
   fun _ _ _ => .ok "ok"⟩

/-- `env` with its collection emptied and everything else unchanged. -/
def emptyCollection (env : RagSystem.RagEnv) : RagSystem.RagEnv :=
  ⟨env.initialized, 0, env.rawQuery, env.reranking, env.rerankScores,
   env.generate⟩

/-- C8 counterexample: an embedding-service failure during retrieval is NOT
distinguishable from the empty-index case by the caller: the `except`
branch of `retrieve_documents` swallows the raised exception and returns
the very same empty result `([], [])` that an empty index produces — no
retrieval error is surfaced. -/
theorem C8_counterexample :
    RagSystem.retrieve_documents envEmbedFail "consulta" 5 = ([], [])
    ∧ RagSystem.retrieve_documents envEmptyIdx "consulta" 5 = ([], []) := by
  constructor
  · rfl
  · rfl

/-- C8 amended: on an empty index `retrieve_documents` returns the empty
result, and on an embedding-service failure it returns the SAME empty
result (the error is only logged, never surfaced), so the two situations
are indistinguishable from the operation's return value. -/
theorem C8_amended (env : RagSystem.RagEnv) (q : String) (n : Nat)
    (e : String) (hinit : env.initialized = true)
    (hcnt : env.collection_count ≠ 0)
    (hfail : env.rawQuery q (min n env.collection_count) = .error e) :
    RagSystem.retrieve_documents env q n = ([], [])
    ∧ RagSystem.retrieve_documents (emptyCollection env) q n = ([], []) := by
  constructor
  · unfold RagSystem.retrieve_documents
    rw [hinit]
    simp only [Bool.not_true, Bool.false_eq_true, if_false, hfail, if_neg hcnt]
  · unfold RagSystem.retrieve_documents emptyCollection
    rw [hinit]
    simp

/-- C8 witness: `C8_amended` applied to the concrete environment
`envEmbedFail`, whose embedding call always raises. -/
theorem C8_witness :
    envEmbedFail.initialized = true
    ∧ envEmbedFail.collection_count ≠ 0
    ∧ envEmbedFail.rawQuery "consulta" (min 5 envEmbedFail.collection_count)
        = .error "embedding service down"
    ∧ (RagSystem.retrieve_documents envEmbedFail "consulta" 5 = ([], [])
       ∧ RagSystem.retrieve_documents (emptyCollection envEmbedFail) "consulta" 5
          = ([], [])) :=
  ⟨rfl, by decide, rfl,
   C8_amended envEmbedFail "consulta" 5 "embedding service down" rfl
     (by decide) rfl⟩


section SanitizeLemmas

lemma mem_rstripSep {c : Char} {l : List Char} (h : c ∈ rstripSep l) :
    c ∈ l := by
  unfold rstripSep at h
  rw [List.mem_reverse] at h
  have h2 : c ∈ l.reverse := List.Sublist.mem h (List.dropWhile_sublist sepChar)
  rwa [List.mem_reverse] at h2

lemma length_rstripSep_le (l : List Char) : (rstripSep l).length ≤ l.length := by
  unfold rstripSep
  rw [List.length_reverse]
  calc (l.reverse.dropWhile sepChar).length
      ≤ l.reverse.length := (List.dropWhile_sublist sepChar).length_le
    _ = l.length := List.length_reverse l

lemma headD_dropWhile_not (p : Char → Bool) (l : List Char) (d : Char)
    (h : l.dropWhile p ≠ []) : p ((l.dropWhile p).headD d) = false := by
  induction l with
  | nil => exact absurd rfl h
  | cons a t ih =>
    rw [List.dropWhile_cons] at h ⊢
    by_cases pa : p a = true
    · rw [if_pos pa] at h ⊢
      exact ih h
    · rw [if_neg pa] at h ⊢
      simpa using pa

lemma headD_append_left (l₁ l₂ : List Char) (d : Char) (h : l₁ ≠ []) :
    (l₁ ++ l₂).headD d = l₁.headD d := by
  cases l₁ with
  | nil => exact absurd rfl h
  | cons a t => rfl

lemma rstripSep_isPrefixOf (l : List Char) : rstripSep l <+: l := by
  have h : (l.reverse.dropWhile sepChar).reverse <+: l.reverse.reverse :=
    List.reverse_prefix.mpr (List.dropWhile_suffix sepChar)
  rwa [List.reverse_reverse] at h

lemma headD_of_isPrefixOf {l₁ l₂ : List Char} (h : l₁ <+: l₂) (hne : l₁ ≠ [])
    (d : Char) : l₂.headD d = l₁.headD d := by
  rcases h with ⟨t, rfl⟩
  exact headD_append_left l₁ t d hne

lemma headD_rstripSep (l : List Char) (d : Char) (h : rstripSep l ≠ []) :
    (rstripSep l).headD d = l.headD d :=
  (headD_of_isPrefixOf (rstripSep_isPrefixOf l) h d).symm

lemma getLastD_eq_headD_reverse (l : List Char) (d : Char) :
    l.getLastD d = l.reverse.headD d := by
  rw [List.getLastD_eq_getLast?, List.headD_eq_head?, List.head?_reverse]

lemma getLastD_rstripSep_not (l : List Char) (d : Char)
    (h : rstripSep l ≠ []) : sepChar ((rstripSep l).getLastD d) = false := by
  have hrev : (rstripSep l).reverse = l.reverse.dropWhile sepChar := by
    unfold rstripSep
    rw [List.reverse_reverse]
  have hne : l.reverse.dropWhile sepChar ≠ [] := by
    rw [← hrev]
    simpa using h
  rw [getLastD_eq_headD_reverse, hrev]
  exact headD_dropWhile_not sepChar l.reverse d hne

lemma headD_take_of_ne (n : Nat) (l : List Char) (d : Char) (hn : n ≠ 0) :
    (l.take n).headD d = l.headD d := by
  cases l with
  | nil => simp
  | cons a t =>
    cases n with
    | zero => exact absurd rfl hn
    | succ m => rfl

lemma sanitizeTruncate_spec (s2 : List Char)
    (hall : ∀ c ∈ s2, allowedChar c = true)
    (hhead : s2 ≠ [] → sepChar (s2.headD '.') = false)
    (hlast : s2 ≠ [] → sepChar (s2.getLastD '.') = false) :
    (sanitizeTruncate s2).length ≤ 63
    ∧ (∀ c ∈ sanitizeTruncate s2, allowedChar c = true)
    ∧ (sanitizeTruncate s2 ≠ [] →
        sepChar ((sanitizeTruncate s2).headD '.') = false)
    ∧ (sanitizeTruncate s2 ≠ [] →
        sepChar ((sanitizeTruncate s2).getLastD '.') = false) := by
  unfold sanitizeTruncate
  by_cases h63 : 63 < s2.length
  · rw [if_pos h63]
    refine ⟨?_, ?_, ?_, ?_⟩
    · calc (rstripSep (s2.take 63)).length
          ≤ (s2.take 63).length := length_rstripSep_le _
        _ ≤ 63 := by simp [List.length_take]
    · intro c hc
      exact hall c (List.Sublist.mem (mem_rstripSep hc) (List.take_sublist 63 s2))
    · intro hne
      rw [headD_rstripSep _ _ hne, headD_take_of_ne 63 s2 '.' (by omega)]
      apply hhead
      intro h0
      rw [h0] at h63
      simp at h63
    · intro hne
      exact getLastD_rstripSep_not _ _ hne
  · rw [if_neg h63]
    exact ⟨by omega, hall, hhead, hlast⟩

lemma sanitizePad_spec (s3 : List Char)
    (hlen : s3.length ≤ 63)
    (hall : ∀ c ∈ s3, allowedChar c = true)
    (hhead : s3 ≠ [] → sepChar (s3.headD '.') = false)
    (hlast : s3 ≠ [] → sepChar (s3.getLastD '.') = false) :
    3 ≤ (sanitizePad s3).length
    ∧ (sanitizePad s3).length ≤ 63
    ∧ (∀ c ∈ sanitizePad s3, allowedChar c = true)
    ∧ sepChar ((sanitizePad s3).headD '.') = false
    ∧ sepChar ((sanitizePad s3).getLastD '.') = false := by
  unfold sanitizePad
  by_cases hlt : s3.length < 3
  · rw [if_pos hlt]
    refine ⟨?_, ?_, ?_, ?_, ?_⟩
    · rw [List.length_append]
      simp
    · rw [List.length_append]
      simp only [List.length_cons, List.length_nil]
      omega
    · intro c hc
      rcases List.mem_append.mp hc with hc1 | hc1
      · exact hall c hc1
      · simp only [List.mem_cons, List.not_mem_nil, or_false] at hc1
        rcases hc1 with rfl | rfl | rfl <;> decide
    · by_cases h3 : s3 = []
      · rw [h3]
        decide
      · rw [headD_append_left s3 _ '.' h3]
        exact hhead h3
    · have hsplit : s3 ++ ['0', '0', '1'] = (s3 ++ ['0', '0']) ++ ['1'] := by
        simp
      rw [hsplit, List.getLastD_concat]
      decide
  · rw [if_neg hlt]
    have h3 : s3 ≠ [] := by
      intro h0
      rw [h0] at hlt
      simp at hlt
    exact ⟨by omega, hlen, hall, hhead h3, hlast h3⟩

lemma sanitizeList_spec (s : List Char) :
    3 ≤ (sanitizeList s).length
    ∧ (sanitizeList s).length ≤ 63
    ∧ (∀ c ∈ sanitizeList s, allowedChar c = true)
    ∧ sepChar ((sanitizeList s).headD '.') = false
    ∧ sepChar ((sanitizeList s).getLastD '.') = false := by
  have hdef : sanitizeList s
      = sanitizePad (sanitizeTruncate (rstripSep
          ((s.map (fun c => if allowedChar c then c else '_')).dropWhile
            sepChar))) := rfl
  have hall1 : ∀ c ∈ s.map (fun c => if allowedChar c then c else '_'),
      allowedChar c = true := by
    intro c hc
    rcases List.mem_map.mp hc with ⟨a, _, rfl⟩
    by_cases ha : allowedChar a = true
    · rw [if_pos ha]
      exact ha
    · rw [if_neg ha]
      decide
  have hall2 : ∀ c ∈ rstripSep
      ((s.map (fun c => if allowedChar c then c else '_')).dropWhile sepChar),
      allowedChar c = true := by
    intro c hc
    exact hall1 c (List.Sublist.mem (mem_rstripSep hc)
      (List.dropWhile_sublist sepChar))
  have hhead2 : rstripSep
      ((s.map (fun c => if allowedChar c then c else '_')).dropWhile sepChar)
        ≠ [] →
      sepChar ((rstripSep ((s.map (fun c => if allowedChar c then c
        else '_')).dropWhile sepChar)).headD '.') = false := by
    intro hne
    have hm : (s.map (fun c => if allowedChar c then c else '_')).dropWhile
        sepChar ≠ [] := by
      intro h0
      rw [h0] at hne
      exact hne rfl
    rw [headD_rstripSep _ _ hne]
    exact headD_dropWhile_not sepChar _ '.' hm
  have hlast2 : rstripSep
      ((s.map (fun c => if allowedChar c then c else '_')).dropWhile sepChar)
        ≠ [] →
      sepChar ((rstripSep ((s.map (fun c => if allowedChar c then c
        else '_')).dropWhile sepChar)).getLastD '.') = false :=
    fun hne => getLastD_rstripSep_not _ '.' hne
  have hT := sanitizeTruncate_spec _ hall2 hhead2 hlast2
  have hP := sanitizePad_spec _ hT.1 hT.2.1 hT.2.2.1 hT.2.2.2
  rw [hdef]
  exact hP

end SanitizeLemmas

/-- C9: for every input string, the collection-name sanitizer returns a
name containing only alphanumeric characters plus `.`, `_`, `-`, whose
length is between 3 and 63 characters inclusive, and which neither starts
nor ends with one of the separator characters `.`, `_`, `-`. -/
theorem C9_sanitize_collection_name (s : String) :
    3 ≤ (sanitize_collection_name s).length
    ∧ (sanitize_collection_name s).length ≤ 63
    ∧ (∀ c ∈ (sanitize_collection_name s).data, allowedChar c = true)
    ∧ sepChar ((sanitize_collection_name s).data.headD '.') = false
    ∧ sepChar ((sanitize_collection_name s).data.getLastD '.') = false := by
  have h := sanitizeList_spec s.data
  have hdata : (sanitize_collection_name s).data = sanitizeList s.data := rfl
  have hlen : (sanitize_collection_name s).length = (sanitizeList s.data).length := rfl
  rw [hdata, hlen]
  exact h

/-- C9 witness: `C9_sanitize_collection_name` applied to the concrete input
`"ab"` (sanitized to `"ab001"`), with the per-character condition
discharged at the concrete character `'a'`. -/
theorem C9_witness :
    3 ≤ (sanitize_collection_name "ab").length
    ∧ (sanitize_collection_name "ab").length ≤ 63
    ∧ allowedChar 'a' = true
    ∧ sepChar ((sanitize_collection_name "ab").data.headD '.') = false
    ∧ sepChar ((sanitize_collection_name "ab").data.getLastD '.') = false :=
  ⟨(C9_sanitize_collection_name "ab").1,
   (C9_sanitize_collection_name "ab").2.1,
   (C9_sanitize_collection_name "ab").2.2.1 'a' (by decide),
   (C9_sanitize_collection_name "ab").2.2.2.1,
   (C9_sanitize_collection_name "ab").2.2.2.2⟩
